import Mathlib

/-!
Shallow embedding of the `empelt/go-websocket` repository (`src/main.go`).

Byte streams are modelled as `List Nat` with each element a byte value;
Go's fixed-width integer arithmetic is carried out on `Nat` with the
bit-masking (`&&&`, `>>>`, `<<<`) written exactly as in the source.
The frame decoder `readFrame`, the encoders `writeFrame` and
`writeCloseFrame`, and the per-connection echo loop of
`websocketHandler` are translated from `src/main.go`; the handshake
header validation is translated from the same file, with the SHA-1 and
base64 primitives of Go's standard library modelled from their
published algorithms (validated below on the RFC 6455 test vector).
-/

namespace GoWebsocket

/-- Go `payload[i] ^= maskingKey[i%4]` loop from `readFrame`, carrying the
running index `i`. -/
def maskFrom (key : List Nat) (i : Nat) : List Nat → List Nat
  | [] => []
  | b :: rest => (b ^^^ key.getD (i % 4) 0) :: maskFrom key (i + 1) rest

/-- The masking transform applied to a whole payload (index starts at 0). -/
def applyMask (key : List Nat) (payload : List Nat) : List Nat :=
  maskFrom key 0 payload

/-- Result of one `readFrame` call: success, the fragmented-frame error
(`fmt.Errorf("fragmented frames not supported yet")`, reported after the
frame's bytes were consumed), or a short read (`io.ReadFull` failure). -/
inductive ReadResult where
  | ok (opcode : Nat) (payload : List Nat) (rest : List Nat)
  | fragmentationUnsupported (opcode : Nat) (payload : List Nat) (rest : List Nat)
  | ioTruncated
  deriving DecidableEq

/-- Tail of `readFrame` after the masking key has been read: read
`payloadLen` payload bytes, unmask if a key is present, then check `fin`. -/
def readPayload (fin : Bool) (opcode : Nat) (key : Option (List Nat))
    (payloadLen : Nat) (s : List Nat) : ReadResult :=
  if payloadLen ≤ s.length then
    let raw := s.take payloadLen
    let rest := s.drop payloadLen
    let payload := match key with
      | some k => applyMask k raw
      | none => raw
    if fin then .ok opcode payload rest
    else .fragmentationUnsupported opcode payload rest
  else .ioTruncated

/-- Middle of `readFrame`: read the 4-byte masking key when the mask bit is
set, then continue with the payload. -/
def readMaskAndPayload (fin : Bool) (opcode : Nat) (masked : Bool)
    (payloadLen : Nat) (s : List Nat) : ReadResult :=
  if masked then
    match s with
    | k0 :: k1 :: k2 :: k3 :: s2 =>
        readPayload fin opcode (some [k0, k1, k2, k3]) payloadLen s2
    | _ => .ioTruncated
  else readPayload fin opcode none payloadLen s

/-- Translation of `readFrame` from `src/main.go`: two header bytes, the
close-opcode short circuit, the optional 2- or 8-byte extended length (of
which only the last 4 bytes are used), the optional masking key, the
payload, unmasking, and the final `fin` check. -/
def readFrame (input : List Nat) : ReadResult :=
  match input with
  | b0 :: b1 :: rest =>
    let fin : Bool := (b0 &&& 128) != 0
    let opcode := b0 &&& 15
    let masked : Bool := (b1 &&& 128) != 0
    let payloadLen := b1 &&& 127
    if opcode = 8 then .ok opcode [] rest
    else if payloadLen = 126 then
      match rest with
      | e0 :: e1 :: s => readMaskAndPayload fin opcode masked ((e0 <<< 8) ||| e1) s
      | _ => .ioTruncated
    else if payloadLen = 127 then
      match rest with
      | _x0 :: _x1 :: _x2 :: _x3 :: e4 :: e5 :: e6 :: e7 :: s =>
          readMaskAndPayload fin opcode masked
            ((((e4 <<< 24) ||| (e5 <<< 16)) ||| (e6 <<< 8)) ||| e7) s
      | _ => .ioTruncated
    else readMaskAndPayload fin opcode masked payloadLen rest
  | _ => .ioTruncated

/-- Translation of `writeFrame` from `src/main.go`: header byte
`0x80 | opcode`, the three-way length encoding, then the payload. -/
def writeFrame (opcode : Nat) (payload : List Nat) : List Nat :=
  let payloadLen := payload.length
  let header : List Nat :=
    if payloadLen < 126 then [128 ||| opcode, payloadLen]
    else if payloadLen ≤ 0xFFFF then
      [128 ||| opcode, 126, (payloadLen >>> 8) &&& 255, payloadLen &&& 255]
    else
      [128 ||| opcode, 127, 0, 0, 0, 0,
        (payloadLen >>> 24) &&& 255, (payloadLen >>> 16) &&& 255,
        (payloadLen >>> 8) &&& 255, payloadLen &&& 255]
  header ++ payload

/-- Byte values of a Lean string, one per character (faithful for the ASCII
strings the program uses). -/
def strBytes (s : String) : List Nat := s.data.map Char.toNat

/-- Translation of `writeCloseFrame` from `src/main.go`: payload is the two
big-endian bytes of `code` followed by the reason bytes, sent with
opcode `0x8` through `writeFrame`. -/
def writeCloseFrame (code : Nat) (reason : String) : List Nat :=
  writeFrame 8 (((code >>> 8) &&& 255) :: (code &&& 255) :: strBytes reason)

/-- The per-connection loop of `websocketHandler` after the handshake,
with the stream's unread bytes as input and the list of written frames as
output: decode errors end the loop with nothing written, a close frame is
answered with `writeCloseFrame 0x8 "bye"` and ends the loop, every other
frame is echoed back and the loop continues.  `fuel` bounds the number of
iterations so the function is total. -/
def connLoop : Nat → List Nat → List (List Nat)
  | 0, _ => []
  | fuel + 1, input =>
    match readFrame input with
    | .ioTruncated => []
    | .fragmentationUnsupported _ _ _ => []
    | .ok op payload rest =>
      if op = 8 then [writeCloseFrame 8 "bye"]
      else writeFrame op payload :: connLoop fuel rest

/-- Canonical wire image of one whole frame, used to quantify over the input
streams that carry a frame: header byte 0 from `fin` and `opcode`, the mask
bit and the three-way length encoding in the following bytes, then the
optional key and the (masked) payload.  `lenSplit` gives the 7-bit length
field together with the extended-length bytes. -/
def lenSplit (n : Nat) : Nat × List Nat :=
  if n < 126 then (n, [])
  else if n ≤ 0xFFFF then (126, [(n >>> 8) &&& 255, n &&& 255])
  else (127, [0, 0, 0, 0, (n >>> 24) &&& 255, (n >>> 16) &&& 255,
    (n >>> 8) &&& 255, n &&& 255])

/-- Wire bytes of a frame carrying `payload`, masked with `key` when one is
given, with the given `fin` bit and `opcode`. -/
def clientFrame (fin : Bool) (opcode : Nat) (key : Option (List Nat))
    (payload : List Nat) : List Nat :=
  let ls := lenSplit payload.length
  let maskBit := match key with | some _ => 128 | none => 0
  let body := match key with
    | some k => k ++ applyMask k payload
    | none => payload
  ((if fin then 128 else 0) ||| opcode) :: (maskBit ||| ls.1) :: (ls.2 ++ body)

/-- Modelled from the spec: Go's `crypto/sha1` (used by `websocketHandler`
to hash `secWebSocketKey + magicGUID`) is standard-library code not under
`src/`; this is the published SHA-1 algorithm on 32-bit words carried as
`Nat` with explicit reduction modulo `2 ^ 32`.  Left rotation of a 32-bit
word. -/
def rotl (n x : Nat) : Nat := ((x <<< n) ||| (x >>> (32 - n))) % 4294967296

/-- SHA-1 padding: a `0x80` byte, zero bytes up to 56 mod 64, then the
original length in bits as 8 big-endian bytes. -/
def sha1Pad (msg : List Nat) : List Nat :=
  let bitLen := msg.length * 8
  let padZeros := (55 + 64 - msg.length % 64) % 64
  msg ++ [128] ++ List.replicate padZeros 0 ++
    [(bitLen >>> 56) &&& 255, (bitLen >>> 48) &&& 255, (bitLen >>> 40) &&& 255,
     (bitLen >>> 32) &&& 255, (bitLen >>> 24) &&& 255, (bitLen >>> 16) &&& 255,
     (bitLen >>> 8) &&& 255, bitLen &&& 255]

/-- Big-endian 32-bit words from a byte list. -/
def toWords : List Nat → List Nat
  | b0 :: b1 :: b2 :: b3 :: rest =>
      ((((b0 <<< 24) ||| (b1 <<< 16)) ||| (b2 <<< 8)) ||| b3) :: toWords rest
  | _ => []

/-- Message-schedule extension: append `rounds` further words, each the
1-bit left rotation of the xor of the words 3, 8, 14 and 16 back. -/
def sha1Extend (ws : List Nat) : Nat → List Nat
  | 0 => ws
  | rounds + 1 =>
    let n := ws.length
    let w := rotl 1 (((ws.getD (n - 3) 0 ^^^ ws.getD (n - 8) 0) ^^^
      ws.getD (n - 14) 0) ^^^ ws.getD (n - 16) 0)
    sha1Extend (ws ++ [w]) rounds

/-- Round function of SHA-1 (32-bit complement written as xor with the
all-ones word). -/
def sha1F (t b c d : Nat) : Nat :=
  if t < 20 then (b &&& c) ||| ((4294967295 ^^^ b) &&& d)
  else if t < 40 then (b ^^^ c) ^^^ d
  else if t < 60 then ((b &&& c) ||| (b &&& d)) ||| (c &&& d)
  else (b ^^^ c) ^^^ d

/-- Round constants of SHA-1. -/
def sha1K (t : Nat) : Nat :=
  if t < 20 then 0x5A827999
  else if t < 40 then 0x6ED9EBA1
  else if t < 60 then 0x8F1BBCDC
  else 0xCA62C1D6

/-- Compression of one 64-byte chunk into the running 5-word state. -/
def sha1Compress (h : Nat × Nat × Nat × Nat × Nat) (chunk : List Nat) :
    Nat × Nat × Nat × Nat × Nat :=
  let ws := sha1Extend (toWords chunk) 64
  let fin := (List.range 80).foldl
    (fun (st : Nat × Nat × Nat × Nat × Nat) t =>
      let (a, b, c, d, e) := st
      let temp := (rotl 5 a + sha1F t b c d + e + sha1K t + ws.getD t 0) % 4294967296
      (temp, a, rotl 30 b, c, d))
    (h.1, h.2.1, h.2.2.1, h.2.2.2.1, h.2.2.2.2)
  ((h.1 + fin.1) % 4294967296, (h.2.1 + fin.2.1) % 4294967296,
   (h.2.2.1 + fin.2.2.1) % 4294967296, (h.2.2.2.1 + fin.2.2.2.1) % 4294967296,
   (h.2.2.2.2 + fin.2.2.2.2) % 4294967296)

/-- Fold `sha1Compress` over the 64-byte chunks of a padded message, with a
fuel bound on the number of chunks so the recursion is structural. -/
def sha1ChunksFuel (fuel : Nat) (h : Nat × Nat × Nat × Nat × Nat)
    (bytes : List Nat) : Nat × Nat × Nat × Nat × Nat :=
  match fuel with
  | 0 => h
  | fuel + 1 =>
    if bytes = [] then h
    else sha1ChunksFuel fuel (sha1Compress h (bytes.take 64)) (bytes.drop 64)

/-- Fold `sha1Compress` over the 64-byte chunks of a padded message
(`bytes.length` iterations always suffice: each step drops 64 bytes). -/
def sha1Chunks (h : Nat × Nat × Nat × Nat × Nat) (bytes : List Nat) :
    Nat × Nat × Nat × Nat × Nat :=
  sha1ChunksFuel bytes.length h bytes

/-- Big-endian bytes of a 32-bit word. -/
def wordBytes (w : Nat) : List Nat :=
  [(w >>> 24) &&& 255, (w >>> 16) &&& 255, (w >>> 8) &&& 255, w &&& 255]

/-- SHA-1 digest (20 bytes) of a byte list. -/
def sha1 (msg : List Nat) : List Nat :=
  let h := sha1Chunks (0x67452301, 0xEFCDAB89, 0x98BADCFE, 0x10325476, 0xC3D2E1F0)
    (sha1Pad msg)
  wordBytes h.1 ++ wordBytes h.2.1 ++ wordBytes h.2.2.1 ++ wordBytes h.2.2.2.1 ++
    wordBytes h.2.2.2.2

/-- Modelled from the spec: Go's `encoding/base64` standard alphabet
(`base64.StdEncoding`, padded), standard-library code not under `src/`. -/
def base64Alphabet : List Char :=
  "ABCDEFGHIJKLMNOPQRSTUVWXYZabcdefghijklmnopqrstuvwxyz0123456789+/".data

/-- Character for one 6-bit group. -/
def b64c (n : Nat) : Char := base64Alphabet.getD n 'A'

/-- Standard base64 with padding, 3 input bytes to 4 output characters. -/
def base64Chunks : List Nat → List Char
  | b0 :: b1 :: b2 :: rest =>
    let n := ((b0 <<< 16) ||| (b1 <<< 8)) ||| b2
    b64c ((n >>> 18) &&& 63) :: b64c ((n >>> 12) &&& 63) ::
      b64c ((n >>> 6) &&& 63) :: b64c (n &&& 63) :: base64Chunks rest
  | [b0, b1] =>
    let n := (b0 <<< 16) ||| (b1 <<< 8)
    [b64c ((n >>> 18) &&& 63), b64c ((n >>> 12) &&& 63), b64c ((n >>> 6) &&& 63), '=']
  | [b0] =>
    let n := b0 <<< 16
    [b64c ((n >>> 18) &&& 63), b64c ((n >>> 12) &&& 63), '=', '=']
  | [] => []

/-- Base64 encoding of a byte list as a string. -/
def base64Encode (bytes : List Nat) : String := String.mk (base64Chunks bytes)

/-- The magic GUID constant of `websocketHandler`. -/
def magicGUID : String := "258EAFA5-E914-47DA-95CA-C5AB0DC85B11"

/-- Accept-key derivation of `websocketHandler`:
`base64(sha1(secWebSocketKey + magicGUID))`. -/
def acceptKeyOf (key : String) : String :=
  base64Encode (sha1 (strBytes (key ++ magicGUID)))

/-- The three request headers `websocketHandler` consults; Go's
`Header.Get` returns `""` for an absent header, so an absent header is
modelled as the empty string. -/
structure RequestHeaders where
  connection : String
  upgrade : String
  secWebSocketKey : String

/-- The two pre-upgrade rejection kinds (both surfaced as HTTP 400). -/
inductive HandshakeError where
  | notAnUpgradeRequest
  | missingHandshakeKey
  deriving DecidableEq

/-- Response of a successful handshake: the three headers set by
`websocketHandler` plus status 101, after which the stream is handed to
the connection loop. -/
structure UpgradeResponse where
  upgrade : String
  connection : String
  secWebSocketAccept : String
  status : Nat
  deriving DecidableEq

/-- Header validation and response construction of `websocketHandler`
(`src/main.go` lines 26-47): exact string comparisons on `Connection` and
`Upgrade`, then the emptiness check on `Sec-WebSocket-Key`, then the 101
response carrying the accept key. -/
def websocketHandshake (r : RequestHeaders) : Except HandshakeError UpgradeResponse :=
  if r.connection ≠ "Upgrade" ∨ r.upgrade ≠ "websocket" then
    .error .notAnUpgradeRequest
  else if r.secWebSocketKey = "" then
    .error .missingHandshakeKey
  else
    .ok { upgrade := "websocket", connection := "Upgrade",
          secWebSocketAccept := acceptKeyOf r.secWebSocketKey, status := 101 }

theorem maskFrom_length (key : List Nat) (i : Nat) (l : List Nat) :
    (maskFrom key i l).length = l.length := by
  induction l generalizing i with
  | nil => rfl
  | cons b rest ih => simp [maskFrom, ih]

theorem maskFrom_maskFrom (key : List Nat) (i : Nat) (l : List Nat) :
    maskFrom key i (maskFrom key i l) = l := by
  induction l generalizing i with
  | nil => rfl
  | cons b rest ih => simp [maskFrom, ih, Nat.xor_assoc]

theorem applyMask_length (key l : List Nat) : (applyMask key l).length = l.length :=
  maskFrom_length key 0 l

theorem applyMask_applyMask (key l : List Nat) :
    applyMask key (applyMask key l) = l :=
  maskFrom_maskFrom key 0 l

theorem lor_disjoint (a b k m : Nat) (hm : m = 2 ^ k) (ha : a % m = 0)
    (hb : b < m) : a ||| b = a + b := by
  subst hm
  have hdvd : 2 ^ k ∣ a := Nat.dvd_of_mod_eq_zero ha
  rw [← Nat.mul_div_cancel' hdvd]
  exact (Nat.mul_add_lt_is_or hb _).symm

theorem and_255 (n : Nat) : n &&& 255 = n % 256 := by
  rw [show (255 : Nat) = 2 ^ 8 - 1 from by norm_num,
    Nat.and_pow_two_sub_one_eq_mod]

theorem shiftRight_and_255 (n k : Nat) : (n >>> k) &&& 255 = n / 2 ^ k % 256 := by
  rw [Nat.shiftRight_eq_div_pow, and_255]

theorem len16_value (e0 e1 : Nat) (h1 : e1 < 256) :
    (e0 <<< 8) ||| e1 = e0 * 256 + e1 := by
  rw [Nat.shiftLeft_eq, show (2 : Nat) ^ 8 = 256 from by norm_num,
    lor_disjoint (e0 * 256) e1 8 256 (by norm_num) (by omega) (by omega)]

theorem len32_value (e4 e5 e6 e7 : Nat) (h5 : e5 < 256) (h6 : e6 < 256)
    (h7 : e7 < 256) :
    (((e4 <<< 24) ||| (e5 <<< 16)) ||| (e6 <<< 8)) ||| e7
      = e4 * 16777216 + e5 * 65536 + e6 * 256 + e7 := by
  rw [Nat.shiftLeft_eq, Nat.shiftLeft_eq, Nat.shiftLeft_eq,
    show (2 : Nat) ^ 24 = 16777216 from by norm_num,
    show (2 : Nat) ^ 16 = 65536 from by norm_num,
    show (2 : Nat) ^ 8 = 256 from by norm_num,
    lor_disjoint (e4 * 16777216) (e5 * 65536) 24 16777216 (by norm_num)
      (by omega) (by omega),
    lor_disjoint (e4 * 16777216 + e5 * 65536) (e6 * 256) 16 65536 (by norm_num)
      (by omega) (by omega),
    lor_disjoint (e4 * 16777216 + e5 * 65536 + e6 * 256) e7 8 256 (by norm_num)
      (by omega) (by omega)]

theorem len16_recombine (n : Nat) (h : n ≤ 65535) :
    (((n >>> 8) &&& 255) <<< 8) ||| (n &&& 255) = n := by
  rw [len16_value _ _ (by rw [and_255]; omega), shiftRight_and_255, and_255,
    show (2 : Nat) ^ 8 = 256 from by norm_num]
  omega

theorem len32_recombine (n : Nat) (h : n < 4294967296) :
    (((((n >>> 24) &&& 255) <<< 24) ||| (((n >>> 16) &&& 255) <<< 16)) |||
      (((n >>> 8) &&& 255) <<< 8)) ||| (n &&& 255) = n := by
  rw [len32_value _ _ _ _ (by rw [shiftRight_and_255]; omega)
      (by rw [shiftRight_and_255]; omega) (by rw [and_255]; omega),
    shiftRight_and_255, shiftRight_and_255, shiftRight_and_255, and_255,
    show (2 : Nat) ^ 24 = 16777216 from by norm_num,
    show (2 : Nat) ^ 16 = 65536 from by norm_num,
    show (2 : Nat) ^ 8 = 256 from by norm_num]
  omega

theorem header0_bits : ∀ o, o < 16 →
    ((128 ||| o) &&& 15 = o) ∧ (((128 ||| o) &&& 128 != 0) = true) ∧
    ((0 ||| o) &&& 15 = o) ∧ (((0 ||| o) &&& 128 != 0) = false) := by decide

theorem header1_bits : ∀ l, l < 128 →
    ((128 ||| l) &&& 127 = l) ∧ (((128 ||| l) &&& 128 != 0) = true) ∧
    ((0 ||| l) &&& 127 = l) ∧ (((0 ||| l) &&& 128 != 0) = false) := by decide

theorem readPayload_unmasked (fin : Bool) (op : Nat) (w rest : List Nat) :
    readPayload fin op none w.length (w ++ rest) =
      if fin then ReadResult.ok op w rest
      else ReadResult.fragmentationUnsupported op w rest := by
  have h : w.length ≤ (w ++ rest).length := by simp
  simp only [readPayload, h, if_true, List.take_left, List.drop_left]

theorem readPayload_masked (fin : Bool) (op : Nat) (k w rest : List Nat) :
    readPayload fin op (some k) w.length (w ++ rest) =
      if fin then ReadResult.ok op (applyMask k w) rest
      else ReadResult.fragmentationUnsupported op (applyMask k w) rest := by
  have h : w.length ≤ (w ++ rest).length := by simp
  simp only [readPayload, h, if_true, List.take_left, List.drop_left]

theorem readMaskAndPayload_unmasked (fin : Bool) (op : Nat) (w rest : List Nat) :
    readMaskAndPayload fin op false w.length (w ++ rest) =
      if fin then ReadResult.ok op w rest
      else ReadResult.fragmentationUnsupported op w rest := by
  simp only [readMaskAndPayload, Bool.false_eq_true, if_false]
  exact readPayload_unmasked fin op w rest

theorem readMaskAndPayload_masked (fin : Bool) (op : Nat) (k0 k1 k2 k3 : Nat)
    (payload rest : List Nat) :
    readMaskAndPayload fin op true payload.length
        (([k0, k1, k2, k3] ++ applyMask [k0, k1, k2, k3] payload) ++ rest) =
      if fin then ReadResult.ok op payload rest
      else ReadResult.fragmentationUnsupported op payload rest := by
  have hlen : (applyMask [k0, k1, k2, k3] payload).length = payload.length :=
    applyMask_length _ _
  simp only [readMaskAndPayload, if_true, List.cons_append, List.nil_append]
  rw [← hlen, readPayload_masked, applyMask_applyMask]

theorem readFrame_parse (fin : Bool) (op mb n : Nat) (s : List Nat)
    (hop : op < 16) (hop8 : op ≠ 8) (hn : n < 4294967296)
    (hmb : mb = 0 ∨ mb = 128) :
    readFrame (((if fin then 128 else 0) ||| op) :: (mb ||| (lenSplit n).1) ::
        ((lenSplit n).2 ++ s)) =
      readMaskAndPayload fin op (mb == 128) n s := by
  have hb0op : ((if fin then 128 else 0) ||| op) &&& 15 = op := by
    cases fin
    · exact (header0_bits op hop).2.2.1
    · exact (header0_bits op hop).1
  have hb0fin : ((((if fin then 128 else 0) ||| op) &&& 128) != 0) = fin := by
    cases fin
    · exact (header0_bits op hop).2.2.2
    · exact (header0_bits op hop).2.1
  have hb1len : ∀ l, l < 128 → ((mb ||| l) &&& 127) = l := by
    intro l hl
    rcases hmb with h | h <;> subst h
    · exact (header1_bits l hl).2.2.1
    · exact (header1_bits l hl).1
  have hb1mask : ∀ l, l < 128 → (((mb ||| l) &&& 128) != 0) = (mb == 128) := by
    intro l hl
    rcases hmb with h | h <;> subst h
    · exact (header1_bits l hl).2.2.2
    · exact (header1_bits l hl).2.1
  by_cases h126 : n < 126
  · have hls : lenSplit n = (n, []) := by
      unfold lenSplit
      rw [if_pos h126]
    rw [hls]
    simp only [List.nil_append, readFrame]
    rw [hb0op, hb0fin, hb1len n (by omega), hb1mask n (by omega),
      if_neg hop8, if_neg (by omega : ¬ n = 126), if_neg (by omega : ¬ n = 127)]
  · by_cases h16 : n ≤ 65535
    · have hls : lenSplit n = (126, [(n >>> 8) &&& 255, n &&& 255]) := by
        unfold lenSplit
        rw [if_neg h126, if_pos h16]
      rw [hls]
      simp only [List.cons_append, List.nil_append, readFrame]
      rw [hb0op, hb0fin, hb1len 126 (by omega), hb1mask 126 (by omega),
        if_neg hop8, if_pos rfl, len16_recombine n (by omega)]
    · have hls : lenSplit n = (127, [0, 0, 0, 0, (n >>> 24) &&& 255,
          (n >>> 16) &&& 255, (n >>> 8) &&& 255, n &&& 255]) := by
        unfold lenSplit
        rw [if_neg h126, if_neg h16]
      rw [hls]
      simp only [List.cons_append, List.nil_append, readFrame]
      rw [hb0op, hb0fin, hb1len 127 (by omega), hb1mask 127 (by omega),
        if_neg hop8, if_neg (by omega : ¬ (127 : Nat) = 126), if_pos rfl,
        len32_recombine n (by omega)]

theorem readFrame_clientFrame (fin : Bool) (op : Nat) (key : Option (List Nat))
    (payload rest : List Nat) (hop : op < 16) (hop8 : op ≠ 8)
    (hlen : payload.length < 4294967296)
    (hkey : ∀ k, key = some k → k.length = 4) :
    readFrame (clientFrame fin op key payload ++ rest) =
      if fin then ReadResult.ok op payload rest
      else ReadResult.fragmentationUnsupported op payload rest := by
  cases key with
  | none =>
    have hstream : clientFrame fin op none payload ++ rest =
        ((if fin then 128 else 0) ||| op) :: (0 ||| (lenSplit payload.length).1) ::
          ((lenSplit payload.length).2 ++ (payload ++ rest)) := by
      simp [clientFrame, List.append_assoc]
    rw [hstream,
      readFrame_parse fin op 0 payload.length (payload ++ rest) hop hop8 hlen
        (Or.inl rfl),
      show ((0 : Nat) == 128) = false from rfl]
    exact readMaskAndPayload_unmasked fin op payload rest
  | some k =>
    have hk := hkey k rfl
    rcases k with _ | ⟨k0, k⟩
    · simp at hk
    rcases k with _ | ⟨k1, k⟩
    · simp at hk
    rcases k with _ | ⟨k2, k⟩
    · simp at hk
    rcases k with _ | ⟨k3, k⟩
    · simp at hk
    have hknil : k = [] := by
      simpa using hk
    subst hknil
    have hstream : clientFrame fin op (some [k0, k1, k2, k3]) payload ++ rest =
        ((if fin then 128 else 0) ||| op) :: (128 ||| (lenSplit payload.length).1) ::
          ((lenSplit payload.length).2 ++
            (([k0, k1, k2, k3] ++ applyMask [k0, k1, k2, k3] payload) ++ rest)) := by
      simp [clientFrame, List.append_assoc]
    rw [hstream,
      readFrame_parse fin op 128 payload.length
        (([k0, k1, k2, k3] ++ applyMask [k0, k1, k2, k3] payload) ++ rest) hop hop8
        hlen (Or.inr rfl),
      show ((128 : Nat) == 128) = true from rfl]
    exact readMaskAndPayload_masked fin op k0 k1 k2 k3 payload rest

theorem writeFrame_eq_clientFrame (op : Nat) (payload : List Nat) :
    writeFrame op payload = clientFrame true op none payload := by
  by_cases h1 : payload.length < 126
  · simp [writeFrame, clientFrame, lenSplit, h1]
  · by_cases h2 : payload.length ≤ 65535
    · simp [writeFrame, clientFrame, lenSplit, h1, h2]
    · simp [writeFrame, clientFrame, lenSplit, h1, h2]

theorem lenSplit_fst_lt (n : Nat) : (lenSplit n).1 < 128 := by
  unfold lenSplit
  split_ifs with h1 h2
  · show n < 128
    omega
  · show 126 < 128
    omega
  · show 127 < 128
    omega

theorem lt_128_and_128 : ∀ l, l < 128 → l &&& 128 = 0 := by decide

theorem fin_bit_set : ∀ o, o < 16 → (128 ||| o) &&& 128 ≠ 0 := by decide

/-- C4: for every input stream whose first two header bytes carry opcode
0x8 (close), decode stops immediately after those two bytes and returns
the close sentinel (opcode 8, empty payload, no error) with the whole
remaining stream untouched, whatever the mask bit and base length field
in the second byte say. -/
theorem close_opcode_short_circuit (b0 b1 : Nat) (rest : List Nat)
    (h : b0 &&& 15 = 8) :
    readFrame (b0 :: b1 :: rest) = ReadResult.ok 8 [] rest := by
  simp only [readFrame]
  rw [h, if_pos rfl]

theorem close_opcode_short_circuit_witness :
    ((136 : Nat) &&& 15 = 8) ∧
    readFrame (136 :: 255 :: [1, 2, 3]) = ReadResult.ok 8 [] [1, 2, 3] :=
  ⟨by decide, close_opcode_short_circuit 136 255 [1, 2, 3] (by decide)⟩

/-- C10: decode reads header byte 0 only through its fin bit (bit 7) and
opcode bits (bits 0-3): two streams whose first bytes agree on the mask
`0x8F` (and agree elsewhere) decode to the same result, so the RSV1-3
bits (bits 4-6) never influence the outcome and never cause rejection. -/
theorem rsv_bits_ignored (b0 b0' : Nat) (rest : List Nat)
    (h : b0 &&& 143 = b0' &&& 143) :
    readFrame (b0 :: rest) = readFrame (b0' :: rest) := by
  have e128 : ∀ x : Nat, x &&& 128 = (x &&& 143) &&& 128 := by
    intro x
    rw [Nat.and_assoc, show (143 &&& 128 : Nat) = 128 from by decide]
  have e15 : ∀ x : Nat, x &&& 15 = (x &&& 143) &&& 15 := by
    intro x
    rw [Nat.and_assoc, show (143 &&& 15 : Nat) = 15 from by decide]
  have hfin : b0 &&& 128 = b0' &&& 128 := by rw [e128 b0, e128 b0', h]
  have hopc : b0 &&& 15 = b0' &&& 15 := by rw [e15 b0, e15 b0', h]
  cases rest with
  | nil => rfl
  | cons b1 rest' =>
    simp only [readFrame]
    rw [hfin, hopc]

theorem rsv_bits_ignored_witness :
    ((241 : Nat) &&& 143 = (129 : Nat) &&& 143) ∧
    readFrame (241 :: [0]) = readFrame (129 :: [0]) :=
  ⟨by decide, rsv_bits_ignored 241 129 [0] (by decide)⟩

/-- C2 counterexample: the stream `[0x08, 0x00]` carries a frame whose fin
bit is 0 (byte 0 is `0x08`, bit 7 clear) with opcode 0x8; decode returns
the close sentinel with no error instead of failing with the
fragmentation error, because the close short circuit runs before the fin
check. -/
theorem fin_zero_close_frame_no_error :
    readFrame [8, 0] = ReadResult.ok 8 [] [] := by decide

/-- C2 (amended): for every input stream carrying a frame whose fin bit is
0 and whose opcode is not 0x8 (close), decode fails with the
fragmentation-unsupported error, regardless of payload and masking, and
the frame's bytes are fully consumed from the stream before the error is
reported (the suffix after the frame is returned untouched). -/
theorem fin_zero_fragmentation_error (op : Nat) (key : Option (List Nat))
    (payload rest : List Nat) (hop : op < 16) (hop8 : op ≠ 8)
    (hlen : payload.length < 4294967296)
    (hkey : ∀ k, key = some k → k.length = 4) :
    readFrame (clientFrame false op key payload ++ rest) =
      ReadResult.fragmentationUnsupported op payload rest := by
  rw [readFrame_clientFrame false op key payload rest hop hop8 hlen hkey]
  rfl

theorem fin_zero_fragmentation_error_witness :
    readFrame (clientFrame false 1 (some [1, 2, 3, 4]) [5, 6] ++ [9]) =
      ReadResult.fragmentationUnsupported 1 [5, 6] [9] :=
  fin_zero_fragmentation_error 1 (some [1, 2, 3, 4]) [5, 6] [9] (by decide)
    (by decide) (by decide) (by intro k hk; cases hk; rfl)

/-- C9: the per-byte masking transform (xor of byte i with key byte i mod
4) is self-inverse for every key and payload, and consequently decoding a
masked frame built with any 4-byte key exposes the client's original
unmasked payload bytes. -/
theorem masking_self_inverse :
    (∀ key payload, applyMask key (applyMask key payload) = payload) ∧
    (∀ (op k0 k1 k2 k3 : Nat) (payload rest : List Nat), op < 16 → op ≠ 8 →
      payload.length < 4294967296 →
      readFrame (clientFrame true op (some [k0, k1, k2, k3]) payload ++ rest) =
        ReadResult.ok op payload rest) := by
  refine ⟨applyMask_applyMask, ?_⟩
  intro op k0 k1 k2 k3 payload rest hop hop8 hlen
  rw [readFrame_clientFrame true op (some [k0, k1, k2, k3]) payload rest hop hop8
    hlen (by intro k hk; cases hk; rfl)]
  rfl

theorem masking_self_inverse_witness :
    applyMask [1, 2, 3, 4] (applyMask [1, 2, 3, 4] [250, 251, 252]) = [250, 251, 252] ∧
    readFrame (clientFrame true 2 (some [9, 8, 7, 6]) [10, 20] ++ []) =
      ReadResult.ok 2 [10, 20] [] :=
  ⟨masking_self_inverse.1 [1, 2, 3, 4] [250, 251, 252],
   masking_self_inverse.2 2 9 8 7 6 [10, 20] [] (by decide) (by decide) (by decide)⟩

/-- C3: for every non-close opcode and every payload of length 0, 125,
126, 65535 or 65536, decoding the bytes produced by encode returns the
same opcode and the byte-identical payload with the stream exhausted;
and encode's length representation follows the boundary rule (one inline
byte below 126, length byte 126 plus a big-endian 16-bit field up to
0xFFFF, otherwise length byte 127 plus an 8-byte field). -/
theorem encode_decode_roundtrip :
    (∀ (op : Nat) (payload : List Nat), op < 16 → op ≠ 8 →
      (payload.length = 0 ∨ payload.length = 125 ∨ payload.length = 126 ∨
        payload.length = 65535 ∨ payload.length = 65536) →
      readFrame (writeFrame op payload) = ReadResult.ok op payload []) ∧
    (∀ (op : Nat) (payload : List Nat),
      (payload.length < 126 →
        writeFrame op payload = [128 ||| op, payload.length] ++ payload) ∧
      (126 ≤ payload.length → payload.length ≤ 65535 →
        writeFrame op payload = [128 ||| op, 126, (payload.length >>> 8) &&& 255,
          payload.length &&& 255] ++ payload) ∧
      (65535 < payload.length →
        writeFrame op payload = [128 ||| op, 127, 0, 0, 0, 0,
          (payload.length >>> 24) &&& 255, (payload.length >>> 16) &&& 255,
          (payload.length >>> 8) &&& 255, payload.length &&& 255] ++ payload)) := by
  constructor
  · intro op payload hop hop8 hlen5
    have hlen : payload.length < 4294967296 := by
      rcases hlen5 with h | h | h | h | h <;> omega
    have h := readFrame_clientFrame true op none payload [] hop hop8 hlen
      (by intro k hk; cases hk)
    rw [List.append_nil] at h
    rw [writeFrame_eq_clientFrame]
    simpa using h
  · intro op payload
    refine ⟨?_, ?_, ?_⟩
    · intro h
      simp [writeFrame, h]
    · intro h1 h2
      simp [writeFrame, show ¬ payload.length < 126 by omega, h2]
    · intro h
      simp [writeFrame, show ¬ payload.length < 126 by omega,
        show ¬ payload.length ≤ 65535 by omega]

theorem encode_decode_roundtrip_witness :
    readFrame (writeFrame 1 (List.replicate 126 65)) =
      ReadResult.ok 1 (List.replicate 126 65) [] ∧
    writeFrame 1 (List.replicate 126 65) =
      [128 ||| 1, 126, ((List.replicate 126 (65 : Nat)).length >>> 8) &&& 255,
        (List.replicate 126 (65 : Nat)).length &&& 255] ++ List.replicate 126 65 :=
  ⟨encode_decode_roundtrip.1 1 (List.replicate 126 65) (by decide) (by decide)
     (by simp),
   (encode_decode_roundtrip.2 1 (List.replicate 126 65)).2.1 (by simp) (by simp)⟩

/-- C7 counterexample: the stream `[0x88, 0xFF, 1, ..., 9]` has base
length field 127 (`0xFF &&& 0x7F`), yet decode reads no extended-length
bytes at all: the close opcode `0x8` short-circuits after the two header
bytes and the nine following bytes are all returned unread. -/
theorem close_with_length_127_reads_no_extension :
    readFrame (136 :: 255 :: [1, 2, 3, 4, 5, 6, 7, 8, 9]) =
      ReadResult.ok 8 [] [1, 2, 3, 4, 5, 6, 7, 8, 9] := by decide

/-- C7 (amended): when the base length field is 127 and the opcode is not
0x8 (close, which short-circuits before the length machinery), decode
consumes exactly 8 extended-length bytes of which the first 4 are
discarded — the result does not depend on them — and the payload length
is the big-endian value of the last 4 bytes; symmetrically, encode for
payloads longer than 0xFFFF writes length byte 127, then 4 zero bytes,
then the big-endian low 32 bits of the length. -/
theorem extended_length_low_32_bits :
    (∀ (b0 b1 x0 x1 x2 x3 e4 e5 e6 e7 : Nat) (tail : List Nat),
      b0 &&& 15 ≠ 8 → b1 &&& 127 = 127 →
      readFrame (b0 :: b1 :: x0 :: x1 :: x2 :: x3 :: e4 :: e5 :: e6 :: e7 :: tail) =
        readFrame (b0 :: b1 :: 0 :: 0 :: 0 :: 0 :: e4 :: e5 :: e6 :: e7 :: tail)) ∧
    (∀ (b0 x0 x1 x2 x3 e4 e5 e6 e7 : Nat) (payload rest : List Nat),
      b0 &&& 15 ≠ 8 → ((b0 &&& 128) != 0) = true → e5 < 256 → e6 < 256 → e7 < 256 →
      payload.length = e4 * 16777216 + e5 * 65536 + e6 * 256 + e7 →
      readFrame (b0 :: 127 :: x0 :: x1 :: x2 :: x3 :: e4 :: e5 :: e6 :: e7 ::
          (payload ++ rest)) =
        ReadResult.ok (b0 &&& 15) payload rest) ∧
    (∀ (op : Nat) (payload : List Nat), 65535 < payload.length →
      writeFrame op payload = [128 ||| op, 127, 0, 0, 0, 0,
        (payload.length >>> 24) &&& 255, (payload.length >>> 16) &&& 255,
        (payload.length >>> 8) &&& 255, payload.length &&& 255] ++ payload) := by
  refine ⟨?_, ?_, ?_⟩
  · intro b0 b1 x0 x1 x2 x3 e4 e5 e6 e7 tail hop h127
    simp [readFrame, h127, hop]
  · intro b0 x0 x1 x2 x3 e4 e5 e6 e7 payload rest hop hfin h5 h6 h7 hplen
    simp only [readFrame]
    rw [show (127 &&& 127 : Nat) = 127 from by decide,
      show (((127 : Nat) &&& 128) != 0) = false from by decide, hfin,
      if_neg hop, if_neg (by decide : ¬ (127 : Nat) = 126), if_pos rfl,
      len32_value e4 e5 e6 e7 h5 h6 h7, ← hplen]
    simpa using readMaskAndPayload_unmasked true (b0 &&& 15) payload rest
  · intro op payload h
    simp [writeFrame, show ¬ payload.length < 126 by omega,
      show ¬ payload.length ≤ 65535 by omega]

theorem extended_length_low_32_bits_witness :
    readFrame (129 :: 127 :: 7 :: 7 :: 7 :: 7 :: 0 :: 0 :: 0 :: 2 ::
        ([10, 20] ++ [])) =
      ReadResult.ok (129 &&& 15) [10, 20] [] :=
  extended_length_low_32_bits.2.1 129 7 7 7 7 0 0 0 2 [10, 20] [] (by decide)
    (by decide) (by decide) (by decide) (by decide) (by decide)

/-- C5: when decode returns the close opcode, the connection loop writes
exactly one frame — the close reply whose payload is the two big-endian
bytes of status code 0x8 followed by the bytes of "bye" — and then
terminates without decoding any further frame (the stream is released by
the deferred close on this exit path). -/
theorem close_reply_and_terminate (fuel : Nat) (input p rest : List Nat)
    (h : readFrame input = ReadResult.ok 8 p rest) :
    connLoop (fuel + 1) input = [writeCloseFrame 8 "bye"] ∧
    writeCloseFrame 8 "bye" = writeFrame 8 [0, 8, 98, 121, 101] := by
  constructor
  · simp [connLoop, h]
  · decide

theorem close_reply_and_terminate_witness :
    connLoop 1 [136, 0] = [writeCloseFrame 8 "bye"] ∧
    writeCloseFrame 8 "bye" = writeFrame 8 [0, 8, 98, 121, 101] :=
  close_reply_and_terminate 0 [136, 0] [] [] (by decide)

/-- C8: every successfully decoded frame whose opcode is not close —
ping and pong included, which get no special handling — is answered by
exactly one written frame with the fin bit set, the mask bit clear, the
same opcode, and the byte-identical payload, after which the loop
continues decoding at the rest of the stream. -/
theorem echo_noncontrol_frames (fuel : Nat) (input : List Nat) (op : Nat)
    (payload rest : List Nat) (h : readFrame input = ReadResult.ok op payload rest)
    (hop8 : op ≠ 8) (hop : op < 16) :
    connLoop (fuel + 1) input = writeFrame op payload :: connLoop fuel rest ∧
    writeFrame op payload = (128 ||| op) :: (lenSplit payload.length).1 ::
      ((lenSplit payload.length).2 ++ payload) ∧
    (128 ||| op) &&& 128 ≠ 0 ∧
    (128 ||| op) &&& 15 = op ∧
    (lenSplit payload.length).1 &&& 128 = 0 := by
  refine ⟨?_, ?_, fin_bit_set op hop, (header0_bits op hop).1,
    lt_128_and_128 _ (lenSplit_fst_lt _)⟩
  · simp [connLoop, h, hop8]
  · rw [writeFrame_eq_clientFrame]
    simp [clientFrame]

theorem echo_noncontrol_frames_witness :
    connLoop 1 [137, 1, 42] = writeFrame 9 [42] :: connLoop 0 [] ∧
    writeFrame 9 [42] = (128 ||| 9) :: (lenSplit [42].length).1 ::
      ((lenSplit [42].length).2 ++ [42]) ∧
    (128 ||| 9) &&& 128 ≠ 0 ∧
    (128 ||| 9) &&& 15 = 9 ∧
    (lenSplit [42].length).1 &&& 128 = 0 :=
  echo_noncontrol_frames 0 [137, 1, 42] 9 [42] [] (by decide) (by decide)
    (by decide)

/-- C6: the handshake rejects with `notAnUpgradeRequest` whenever the
`Connection` header is not exactly "Upgrade" or the `Upgrade` header is
not exactly "websocket" (exact, case-sensitive comparison), rejects with
`missingHandshakeKey` when those pass but `Sec-WebSocket-Key` is empty
or absent, and only otherwise produces the 101 upgrade response (after
which the stream handoff occurs). -/
theorem handshake_validation (r : RequestHeaders) :
    ((r.connection ≠ "Upgrade" ∨ r.upgrade ≠ "websocket") →
      websocketHandshake r = Except.error HandshakeError.notAnUpgradeRequest) ∧
    (r.connection = "Upgrade" → r.upgrade = "websocket" →
      r.secWebSocketKey = "" →
      websocketHandshake r = Except.error HandshakeError.missingHandshakeKey) ∧
    (r.connection = "Upgrade" → r.upgrade = "websocket" →
      r.secWebSocketKey ≠ "" →
      websocketHandshake r = Except.ok
        { upgrade := "websocket",
          connection := "Upgrade",
          secWebSocketAccept := acceptKeyOf r.secWebSocketKey,
          status := 101 }) := by
  refine ⟨?_, ?_, ?_⟩
  · intro h
    unfold websocketHandshake
    rw [if_pos h]
  · intro h1 h2 h3
    unfold websocketHandshake
    rw [if_neg (by simp [h1, h2]), if_pos h3]
  · intro h1 h2 h3
    unfold websocketHandshake
    rw [if_neg (by simp [h1, h2]), if_neg h3]

theorem handshake_validation_witness :
    websocketHandshake ⟨"keep-alive", "websocket", "k"⟩ =
      Except.error HandshakeError.notAnUpgradeRequest ∧
    websocketHandshake ⟨"Upgrade", "websocket", ""⟩ =
      Except.error HandshakeError.missingHandshakeKey ∧
    websocketHandshake ⟨"Upgrade", "websocket", "dGhlIHNhbXBsZSBub25jZQ=="⟩ =
      Except.ok
        { upgrade := "websocket", connection := "Upgrade",
          secWebSocketAccept := acceptKeyOf "dGhlIHNhbXBsZSBub25jZQ==",
          status := 101 } :=
  ⟨(handshake_validation ⟨"keep-alive", "websocket", "k"⟩).1
     (Or.inl (by decide)),
   (handshake_validation ⟨"Upgrade", "websocket", ""⟩).2.1 rfl rfl rfl,
   (handshake_validation ⟨"Upgrade", "websocket", "dGhlIHNhbXBsZSBub25jZQ=="⟩).2.2
     rfl rfl (by decide)⟩

set_option maxRecDepth 10000 in
/-- C1: every handshake request that passes header validation receives an
accept key equal to `base64Encode (sha1 (secWebSocketKey ++ magicGUID))`
with standard padded base64, and on the RFC 6455 example key
"dGhlIHNhbXBsZSBub25jZQ==" the accept key is exactly
"s3pPLMBiTxaQ9kYGzzhZRbK+xOo=". -/
theorem accept_key_derivation :
    (∀ (r : RequestHeaders) (resp : UpgradeResponse),
      websocketHandshake r = Except.ok resp →
      resp.secWebSocketAccept =
        base64Encode (sha1 (strBytes (r.secWebSocketKey ++ magicGUID)))) ∧
    acceptKeyOf "dGhlIHNhbXBsZSBub25jZQ==" = "s3pPLMBiTxaQ9kYGzzhZRbK+xOo=" := by
  constructor
  · intro r resp h
    unfold websocketHandshake at h
    split at h
    · exact absurd h (by simp)
    · split at h
      · exact absurd h (by simp)
      · injection h with h2
        subst h2
        rfl
  · decide

theorem accept_key_derivation_witness :
    ({ upgrade := "websocket", connection := "Upgrade",
       secWebSocketAccept := acceptKeyOf "dGhlIHNhbXBsZSBub25jZQ==",
       status := 101 } : UpgradeResponse).secWebSocketAccept =
      base64Encode (sha1 (strBytes ("dGhlIHNhbXBsZSBub25jZQ==" ++ magicGUID))) :=
  accept_key_derivation.1 ⟨"Upgrade", "websocket", "dGhlIHNhbXBsZSBub25jZQ=="⟩
    { upgrade := "websocket", connection := "Upgrade",
      secWebSocketAccept := acceptKeyOf "dGhlIHNhbXBsZSBub25jZQ==",
      status := 101 } rfl

end GoWebsocket
